import Mathlib

/-!
Shallow embedding of the `ServerSearch` React component from
`src/components/server/server-search.tsx`.

The component receives a list of groups (`data` prop), keeps a single
boolean piece of state (`open`, initialised to `false` by `useState(false)`),
and renders a trigger button plus a `CommandDialog`.  Inside the dialog it
renders a `CommandInput`, a `CommandList` containing only a `CommandEmpty`
placeholder, and then — as siblings of the `CommandList` — one
`CommandGroup` per input group that has a non-empty item list
(`if (!data?.length) return null;`), each group holding one `CommandItem`
per item.

The rendered output is modelled as a tree of `Node`s; event handlers
attached by JSX props (`onClick`, `onOpenChange`) are recorded symbolically
as `HandlerSpec`s carrying the `Event` they dispatch, and the `useState`
updates are modelled by the `step` function on the boolean state.
-/

namespace ServerSearch

/-- Events that can reach the component's state: a click on the trigger
button (whose handler is the arrow function `() => setOpen(true)`), and the
dialog primitive reporting an open/close change through `onOpenChange`
(which is `setOpen` itself, applied to the reported boolean). -/
inductive Event where
  | clickTrigger
  | openChange (b : Bool)
deriving DecidableEq

/-- A handler attached to a rendered element, recorded symbolically:
`onClick e` (dispatches `e` when the element is clicked), `onKeyDown e`,
`onSelect e`, and the dialog's `onOpenChange` channel.  The source attaches
only one `onClick` (on the trigger button) and one `onOpenChange` (on the
dialog); `onKeyDown` and `onSelect` exist in the model so that their
absence from the rendered tree is a provable fact rather than a typing
artifact. -/
inductive HandlerSpec where
  | onClick (e : Event)
  | onKeyDown (e : Event)
  | onSelect (e : Event)
  | onOpenChange
deriving DecidableEq

/-- The `type: "channel" | "member"` discriminator of a group. -/
inductive GroupType where
  | channel
  | member
deriving DecidableEq

/-- One item of a group: `{ icon: React.ReactNode; name: string; id: string }`.
The opaque renderable `icon` is modelled by a type parameter `ι`. -/
structure SearchItem (ι : Type) where
  icon : ι
  name : String
  id : String

/-- One group of the `data` prop:
`{ label: string; type: "channel" | "member"; data: SearchItem[] | undefined }`.
The possibly-`undefined` item array is an `Option`. -/
structure SearchGroup (ι : Type) where
  label : String
  type : GroupType
  data : Option (List (SearchItem ι))

/-- The rendered element tree.  Constructors mirror the JSX elements used by
the component; `button`, `commandDialog` and `commandItem` carry the list of
handlers attached to them. -/
inductive Node (ι : Type) where
  | searchIcon
  | pText (s : String)
  | kbdGlyph (s : String)
  | button (handlers : List HandlerSpec) (children : List (Node ι))
  | commandDialog (isOpen : Bool) (handlers : List HandlerSpec) (children : List (Node ι))
  | commandInput (placeholder : String)
  | commandList (children : List (Node ι))
  | commandEmpty (msg : String)
  | commandGroup (key : String) (heading : String) (children : List (Node ι))
  | commandItem (key : String) (handlers : List HandlerSpec) (children : List (Node ι))
  | iconNode (icon : ι)
  | spanText (s : String)

/-- `useState(false)`: the open flag starts closed. -/
def initialOpen : Bool := false

/-- State update performed by each event: the trigger's `onClick` runs
`setOpen(true)`; the dialog's `onOpenChange` runs `setOpen(b)` with the
boolean the primitive reports. -/
def step : Bool → Event → Bool := fun _ e =>
  match e with
  | .clickTrigger => true
  | .openChange b => b

variable {ι : Type} {α : Type}

/-- The item list of a group, reading `undefined` as the empty list. -/
def itemsOf (g : SearchGroup ι) : List (SearchItem ι) :=
  g.data.getD []

/-- Whether a group survives the `if (!data?.length) return null;` guard. -/
def nonEmptyB (g : SearchGroup ι) : Bool :=
  !(itemsOf g).isEmpty

/-- `<CommandItem key={id}>{icon}<span>{name}</span></CommandItem>`; no
`onSelect` (or any other) handler is attached in the source. -/
def renderItem (it : SearchItem ι) : Node ι :=
  .commandItem it.id [] [.iconNode it.icon, .spanText it.name]

/-- The body of `data.map(...)`: groups whose item array is `undefined`
(`data?.length` is `undefined`, falsy) or empty (`data?.length` is `0`,
falsy) return `null`, modelled as `none`; otherwise a `CommandGroup` keyed
by and headed with the group's label, containing one row per item. -/
def renderGroup (g : SearchGroup ι) : Option (Node ι) :=
  match g.data with
  | none => none
  | some items =>
      if items.length = 0 then none
      else some (.commandGroup g.label g.label (items.map renderItem))

/-- The group elements produced by `data.map(...)`; React elides the `null`
entries, hence `filterMap`. -/
def renderedGroups (data : List (SearchGroup ι)) : List (Node ι) :=
  data.filterMap renderGroup

/-- The always-visible trigger `<button onClick={() => setOpen(true)}>` with
its icon, the "Search" label and the decorative `⌘K` glyph (a `<kbd>` with
no handler of any kind). -/
def triggerButton : Node ι :=
  .button [.onClick .clickTrigger]
    [.searchIcon, .pText "Search", .kbdGlyph "⌘K"]

/-- Placeholder text of the `CommandInput`. -/
def searchPlaceholder : String := "Search all channels and members"

/-- Text of the `CommandEmpty` placeholder. -/
def emptyMessage : String := "No Result found"

/-- `<CommandDialog open={open} onOpenChange={setOpen}>`: the input, the
`CommandList` containing only the empty-state placeholder, then the group
elements as later siblings of the `CommandList`. -/
def renderDialog (data : List (SearchGroup ι)) (isOpen : Bool) : Node ι :=
  .commandDialog isOpen [.onOpenChange]
    (Node.commandInput searchPlaceholder
      :: Node.commandList [Node.commandEmpty emptyMessage]
      :: renderedGroups data)

/-- The component's full rendered output (a fragment with two children)
as a function of the `data` prop and the current `open` state. -/
def render (data : List (SearchGroup ι)) (isOpen : Bool) : List (Node ι) :=
  [triggerButton, renderDialog data isOpen]

mutual

/-- All nodes of a subtree, root first, in document order. -/
def Node.allNodes : Node ι → List (Node ι)
  | .button hs cs => .button hs cs :: allNodesList cs
  | .commandDialog b hs cs => .commandDialog b hs cs :: allNodesList cs
  | .commandList cs => .commandList cs :: allNodesList cs
  | .commandGroup k h cs => .commandGroup k h cs :: allNodesList cs
  | .commandItem k hs cs => .commandItem k hs cs :: allNodesList cs
  | n => [n]

/-- All nodes of a forest, in document order. -/
def allNodesList : List (Node ι) → List (Node ι)
  | [] => []
  | n :: ns => Node.allNodes n ++ allNodesList ns

end

/-- Collect local observations `f` over every node of a forest. -/
def collect (f : Node ι → List α) (ns : List (Node ι)) : List α :=
  (allNodesList ns).flatMap f

theorem allNodesList_append (xs ys : List (Node ι)) :
    allNodesList (xs ++ ys) = allNodesList xs ++ allNodesList ys := by
  induction xs with
  | nil => simp [allNodesList]
  | cons n ns ih => simp [allNodesList, ih]

theorem collect_append (f : Node ι → List α) (xs ys : List (Node ι)) :
    collect f (xs ++ ys) = collect f xs ++ collect f ys := by
  simp [collect, allNodesList_append]

theorem collect_cons (f : Node ι → List α) (n : Node ι) (ns : List (Node ι)) :
    collect f (n :: ns) = (Node.allNodes n).flatMap f ++ collect f ns := by
  simp [collect, allNodesList]

/-- Local observation: the heading of a `CommandGroup`. -/
def headingOf : Node ι → List String
  | .commandGroup _ h _ => [h]
  | _ => []

/-- Local observation: the key and heading of a `CommandGroup`. -/
def keyHeadingOf : Node ι → List (String × String)
  | .commandGroup k h _ => [(k, h)]
  | _ => []

/-- Local observation: the key of a `CommandItem` row. -/
def itemKeyOf : Node ι → List String
  | .commandItem k _ _ => [k]
  | _ => []

/-- Local observation: the handlers attached to a `CommandItem` row. -/
def itemHandlersOf : Node ι → List HandlerSpec
  | .commandItem _ hs _ => hs
  | _ => []

/-- Local observation: all handlers attached to a node. -/
def handlersOf : Node ι → List HandlerSpec
  | .button hs _ => hs
  | .commandDialog _ hs _ => hs
  | .commandItem _ hs _ => hs
  | _ => []

/-- Local observation: the `open` attribute of a `CommandDialog`. -/
def dialogOpenFlagOf : Node ι → List Bool
  | .commandDialog b _ _ => [b]
  | _ => []

/-- Local observation: the children list of a `CommandList`. -/
def commandListKidsOf : Node ι → List (List (Node ι))
  | .commandList cs => [cs]
  | _ => []

/-- Local observation: the children list of a `CommandDialog`. -/
def dialogKidsOf : Node ι → List (List (Node ι))
  | .commandDialog _ _ cs => [cs]
  | _ => []

/-- Local observation: for a `CommandGroup`, the keys of its direct item
rows, in order. -/
def groupRowKeysOf : Node ι → List (List String)
  | .commandGroup _ _ cs => [cs.flatMap itemKeyOf]
  | _ => []

/-- The event a user-gesture handler dispatches (`onClick`, `onKeyDown`,
`onSelect`); the `onOpenChange` channel is driven by the dialog primitive,
not by a gesture on an element this component renders itself. -/
def gestureEventsOf : HandlerSpec → List Event
  | .onClick e => [e]
  | .onKeyDown e => [e]
  | .onSelect e => [e]
  | .onOpenChange => []

/-- The event of a keyboard handler, if any. -/
def keydownEventsOf : HandlerSpec → List Event
  | .onKeyDown e => [e]
  | _ => []

/-- All group headings of a rendered forest, in document order. -/
def headingsList (ns : List (Node ι)) : List String :=
  collect headingOf ns

/-- All (key, heading) pairs of rendered groups, in document order. -/
def keyHeadingsList (ns : List (Node ι)) : List (String × String) :=
  collect keyHeadingOf ns

/-- All keys of rendered item rows, in document order. -/
def itemKeysList (ns : List (Node ι)) : List String :=
  collect itemKeyOf ns

/-- All handlers attached to rendered item rows. -/
def itemHandlersList (ns : List (Node ι)) : List HandlerSpec :=
  collect itemHandlersOf ns

/-- All handlers attached anywhere in a rendered forest. -/
def handlersList (ns : List (Node ι)) : List HandlerSpec :=
  collect handlersOf ns

/-- All events wired to user gestures anywhere in a rendered forest. -/
def gestureEventsList (ns : List (Node ι)) : List Event :=
  (handlersList ns).flatMap gestureEventsOf

/-- All events wired to keyboard handlers anywhere in a rendered forest. -/
def keydownEventsList (ns : List (Node ι)) : List Event :=
  (handlersList ns).flatMap keydownEventsOf

/-- The `open` attributes of all rendered dialogs. -/
def dialogOpenFlagsList (ns : List (Node ι)) : List Bool :=
  collect dialogOpenFlagOf ns

/-- The children lists of all rendered `CommandList`s. -/
def commandListKidsList (ns : List (Node ι)) : List (List (Node ι)) :=
  collect commandListKidsOf ns

/-- The children lists of all rendered `CommandDialog`s. -/
def dialogKidsList (ns : List (Node ι)) : List (List (Node ι)) :=
  collect dialogKidsOf ns

/-- For each rendered group in document order, the keys of its rows. -/
def groupRowKeysList (ns : List (Node ι)) : List (List String) :=
  collect groupRowKeysOf ns

theorem renderGroup_eq_none (g : SearchGroup ι) (h : itemsOf g = []) :
    renderGroup g = none := by
  cases hg : g.data with
  | none => simp [renderGroup, hg]
  | some items =>
      have : items = [] := by simpa [itemsOf, hg] using h
      simp [renderGroup, hg, this]

theorem renderGroup_of_ne (g : SearchGroup ι) (h : itemsOf g ≠ []) :
    renderGroup g
      = some (.commandGroup g.label g.label ((itemsOf g).map renderItem)) := by
  cases hg : g.data with
  | none => exact absurd (by simp [itemsOf, hg]) h
  | some items =>
      have hne : items ≠ [] := by simpa [itemsOf, hg] using h
      have hlen : ¬ items.length = 0 := by simpa [List.length_eq_zero] using hne
      simp [renderGroup, hg, hlen, itemsOf]

theorem collect_itemRows (f : Node ι → List α) (items : List (SearchItem ι)) :
    collect f (items.map renderItem)
      = items.flatMap (fun it =>
          f (.commandItem it.id [] [.iconNode it.icon, .spanText it.name])
            ++ f (.iconNode it.icon) ++ f (.spanText it.name)) := by
  induction items with
  | nil => simp [collect, allNodesList]
  | cons it its ih =>
      rw [List.map_cons, collect_cons, ih]
      simp [renderItem, Node.allNodes, allNodesList]

theorem collect_renderedGroups (f : Node ι → List α) (data : List (SearchGroup ι)) :
    collect f (renderedGroups data)
      = (data.filter nonEmptyB).flatMap (fun g =>
          f (.commandGroup g.label g.label ((itemsOf g).map renderItem))
            ++ collect f ((itemsOf g).map renderItem)) := by
  induction data with
  | nil => simp [renderedGroups, collect, allNodesList]
  | cons g gs ih =>
      rw [renderedGroups, List.filterMap_cons]
      by_cases h : itemsOf g = []
      · have hb : nonEmptyB g = false := by
          simp [nonEmptyB, List.isEmpty_iff, h]
        rw [renderGroup_eq_none g h]
        rw [List.filter_cons_of_neg (by simp [hb])]
        exact ih
      · have hb : nonEmptyB g = true := by
          simp [nonEmptyB, List.isEmpty_iff, h]
        rw [renderGroup_of_ne g h]
        rw [List.filter_cons_of_pos (by simp [hb])]
        rw [collect_cons, List.flatMap_cons]
        rw [show (renderedGroups gs = List.filterMap renderGroup gs) from rfl] at ih
        rw [ih]
        simp [Node.allNodes, collect, List.append_assoc]

theorem collect_render (f : Node ι → List α) (data : List (SearchGroup ι)) (b : Bool) :
    collect f (render data b)
      = f (.button [.onClick .clickTrigger] [.searchIcon, .pText "Search", .kbdGlyph "⌘K"])
          ++ f .searchIcon ++ f (.pText "Search") ++ f (.kbdGlyph "⌘K")
          ++ f (.commandDialog b [.onOpenChange]
                (Node.commandInput searchPlaceholder
                  :: Node.commandList [Node.commandEmpty emptyMessage]
                  :: renderedGroups data))
          ++ f (.commandInput searchPlaceholder)
          ++ f (.commandList [.commandEmpty emptyMessage])
          ++ f (.commandEmpty emptyMessage)
          ++ collect f (renderedGroups data) := by
  rw [render, collect_cons]
  simp [triggerButton, renderDialog, Node.allNodes, allNodesList, collect,
    allNodesList_append, List.append_assoc]

theorem flatMap_const_nil {β : Type} (l : List β) :
    (l.flatMap fun _ => ([] : List α)) = [] := by
  induction l with
  | nil => rfl
  | cons x xs ih => simp [List.flatMap_cons, ih]

theorem flatMap_singleton {β : Type} (l : List β) (f : β → α) :
    (l.flatMap fun x => [f x]) = l.map f := by
  induction l with
  | nil => rfl
  | cons x xs ih => simp [List.flatMap_cons, ih]

theorem itemKeys_rows (items : List (SearchItem ι)) :
    (items.map renderItem).flatMap itemKeyOf = items.map SearchItem.id := by
  induction items with
  | nil => rfl
  | cons it its ih => simp [List.flatMap_cons, renderItem, itemKeyOf, ih]

theorem headings_render (data : List (SearchGroup ι)) (b : Bool) :
    headingsList (render data b) = (data.filter nonEmptyB).map SearchGroup.label := by
  rw [headingsList, collect_render, collect_renderedGroups]
  simp [headingOf, collect_itemRows, flatMap_const_nil, flatMap_singleton]

theorem keyHeadings_render (data : List (SearchGroup ι)) (b : Bool) :
    keyHeadingsList (render data b)
      = (data.filter nonEmptyB).map (fun g => (g.label, g.label)) := by
  rw [keyHeadingsList, collect_render, collect_renderedGroups]
  simp [keyHeadingOf, collect_itemRows, flatMap_const_nil, flatMap_singleton]

theorem itemKeys_render (data : List (SearchGroup ι)) (b : Bool) :
    itemKeysList (render data b)
      = (data.filter nonEmptyB).flatMap (fun g => (itemsOf g).map SearchItem.id) := by
  rw [itemKeysList, collect_render, collect_renderedGroups]
  simp [itemKeyOf, collect_itemRows, flatMap_singleton]

theorem itemHandlers_render (data : List (SearchGroup ι)) (b : Bool) :
    itemHandlersList (render data b) = [] := by
  rw [itemHandlersList, collect_render, collect_renderedGroups]
  simp [itemHandlersOf, collect_itemRows]

theorem handlers_render (data : List (SearchGroup ι)) (b : Bool) :
    handlersList (render data b) = [.onClick .clickTrigger, .onOpenChange] := by
  rw [handlersList, collect_render, collect_renderedGroups]
  simp [handlersOf, collect_itemRows]

theorem gestureEvents_render (data : List (SearchGroup ι)) (b : Bool) :
    gestureEventsList (render data b) = [.clickTrigger] := by
  rw [gestureEventsList, handlers_render]
  simp [gestureEventsOf]

theorem keydownEvents_render (data : List (SearchGroup ι)) (b : Bool) :
    keydownEventsList (render data b) = [] := by
  rw [keydownEventsList, handlers_render]
  simp [keydownEventsOf]

theorem dialogOpenFlags_render (data : List (SearchGroup ι)) (b : Bool) :
    dialogOpenFlagsList (render data b) = [b] := by
  rw [dialogOpenFlagsList, collect_render, collect_renderedGroups]
  simp [dialogOpenFlagOf, collect_itemRows]

theorem commandListKids_render (data : List (SearchGroup ι)) (b : Bool) :
    commandListKidsList (render data b) = [[Node.commandEmpty emptyMessage]] := by
  rw [commandListKidsList, collect_render, collect_renderedGroups]
  simp [commandListKidsOf, collect_itemRows]

theorem dialogKids_render (data : List (SearchGroup ι)) (b : Bool) :
    dialogKidsList (render data b)
      = [Node.commandInput searchPlaceholder
          :: Node.commandList [Node.commandEmpty emptyMessage]
          :: renderedGroups data] := by
  rw [dialogKidsList, collect_render, collect_renderedGroups]
  simp [dialogKidsOf, collect_itemRows]

theorem groupRowKeys_render (data : List (SearchGroup ι)) (b : Bool) :
    groupRowKeysList (render data b)
      = (data.filter nonEmptyB).map (fun g => (itemsOf g).map SearchItem.id) := by
  rw [groupRowKeysList, collect_render, collect_renderedGroups]
  simp [groupRowKeysOf, collect_itemRows, itemKeys_rows, flatMap_const_nil,
    flatMap_singleton]

/-- Local observation: the text of a `span`. -/
def spanTextOf : Node ι → List String
  | .spanText s => [s]
  | _ => []

/-- Local observation: for a `CommandItem` row, its key together with the
texts of its direct `span` children. -/
def rowOf : Node ι → List (String × List String)
  | .commandItem k _ cs => [(k, cs.flatMap spanTextOf)]
  | _ => []

/-- All rendered item rows, as (key, displayed texts) pairs, in order. -/
def rowsList (ns : List (Node ι)) : List (String × List String) :=
  collect rowOf ns

theorem rows_render (data : List (SearchGroup ι)) (b : Bool) :
    rowsList (render data b)
      = (data.filter nonEmptyB).flatMap
          (fun g => (itemsOf g).map (fun it => (it.id, [it.name]))) := by
  rw [rowsList, collect_render, collect_renderedGroups]
  simp [rowOf, collect_itemRows, spanTextOf, flatMap_const_nil, flatMap_singleton]

/-- All item ids of the flattened dataset, in order. -/
def allIds (data : List (SearchGroup ι)) : List String :=
  data.flatMap (fun g => (itemsOf g).map SearchItem.id)

/-- Well-formed input: ids are distinct across the flattened dataset. -/
def wellFormed (data : List (SearchGroup ι)) : Prop :=
  (allIds data).Nodup

/-- The flattened item list of the dataset. -/
def flatItems (data : List (SearchGroup ι)) : List (SearchItem ι) :=
  data.flatMap itemsOf

theorem filtered_ids_eq_allIds (data : List (SearchGroup ι)) :
    (data.filter nonEmptyB).flatMap (fun g => (itemsOf g).map SearchItem.id)
      = allIds data := by
  induction data with
  | nil => rfl
  | cons g gs ih =>
      by_cases h : itemsOf g = []
      · have hb : nonEmptyB g = false := by
          simp [nonEmptyB, List.isEmpty_iff, h]
        rw [List.filter_cons_of_neg (by simp [hb]), ih]
        simp [allIds, List.flatMap_cons, h]
      · have hb : nonEmptyB g = true := by
          simp [nonEmptyB, List.isEmpty_iff, h]
        rw [List.filter_cons_of_pos (by simp [hb])]
        simp only [allIds, List.flatMap_cons] at ih ⊢
        rw [ih]

/-- The component body re-expressed with an explicit error channel: each
branch of the group-rendering callback, mirrored one for one, returns
`.ok`.  The source guards both accesses with optional chaining
(`data?.length`, `data?.map`), so no branch can raise. -/
def renderGroupE (g : SearchGroup ι) : Except String (Option (Node ι)) :=
  match g.data with
  | none => .ok none
  | some items =>
      if items.length = 0 then .ok none
      else .ok (some (.commandGroup g.label g.label (items.map renderItem)))

/-- `data.map(...)` with the error channel threaded through. -/
def renderedGroupsE (data : List (SearchGroup ι)) : Except String (List (Node ι)) :=
  match data with
  | [] => .ok []
  | g :: gs => do
      let hd ← renderGroupE g
      let tl ← renderedGroupsE gs
      pure (match hd with | none => tl | some n => n :: tl)

/-- The full render with the error channel threaded through. -/
def renderE (data : List (SearchGroup ι)) (b : Bool) :
    Except String (List (Node ι)) := do
  let gs ← renderedGroupsE data
  pure [triggerButton,
    .commandDialog b [.onOpenChange]
      (Node.commandInput searchPlaceholder
        :: Node.commandList [Node.commandEmpty emptyMessage]
        :: gs)]

theorem renderGroupE_ok (g : SearchGroup ι) :
    renderGroupE g = .ok (renderGroup g) := by
  cases hg : g.data with
  | none => simp [renderGroupE, renderGroup, hg]
  | some items =>
      by_cases h : items.length = 0
      · simp [renderGroupE, renderGroup, hg, h]
      · simp [renderGroupE, renderGroup, hg, h]

theorem renderedGroupsE_ok (data : List (SearchGroup ι)) :
    renderedGroupsE data = .ok (renderedGroups data) := by
  induction data with
  | nil => rfl
  | cons g gs ih =>
      rw [renderedGroupsE, renderGroupE_ok, ih]
      cases hg : renderGroup g with
      | none =>
          simp only [renderedGroups, List.filterMap_cons, hg]
          rfl
      | some n =>
          simp only [renderedGroups, List.filterMap_cons, hg]
          rfl

/-- A full render pass: the component body is a single pure expression with
no assignment to the props or to any group or item, so the pass returns the
input dataset unchanged alongside the output tree. -/
def renderPass (data : List (SearchGroup ι)) (b : Bool) :
    List (SearchGroup ι) × List (Node ι) :=
  (data, render data b)

/-- The single-group dataset of the spec scenario: one channel group
labelled "Text Channels" holding the item `general` with id "1". -/
def sampleData : List (SearchGroup Unit) :=
  [⟨"Text Channels", GroupType.channel, some [⟨(), "general", "1"⟩]⟩]

/-- A group whose item array is absent (`undefined`). -/
def gAbsent : SearchGroup Unit :=
  ⟨"Voice Channels", GroupType.channel, none⟩

/-- A group whose item array is present but empty. -/
def gEmpty : SearchGroup Unit :=
  ⟨"Members", GroupType.member, some []⟩

/-- A group holding exactly one item. -/
def gOne : SearchGroup Unit :=
  ⟨"Text Channels", GroupType.channel, some [⟨(), "general", "1"⟩]⟩

theorem itemsOf_nil_of_flatItems_nil (data : List (SearchGroup ι))
    (h : flatItems data = []) : ∀ g ∈ data, itemsOf g = [] := by
  induction data with
  | nil => intro g hg; simp at hg
  | cons g gs ih =>
      rw [flatItems, List.flatMap_cons, List.append_eq_nil] at h
      intro x hx
      rcases List.mem_cons.mp hx with hx | hx
      · subst hx; exact h.1
      · exact ih h.2 x hx

theorem renderedGroups_eq_nil (data : List (SearchGroup ι))
    (h : ∀ g ∈ data, itemsOf g = []) : renderedGroups data = [] := by
  induction data with
  | nil => rfl
  | cons g gs ih =>
      rw [renderedGroups, List.filterMap_cons,
        renderGroup_eq_none g (h g (List.mem_cons_self g gs))]
      exact ih fun x hx => h x (List.mem_cons_of_mem g hx)

theorem filter_nonEmpty_eq_nil (data : List (SearchGroup ι))
    (h : ∀ g ∈ data, itemsOf g = []) : data.filter nonEmptyB = [] := by
  induction data with
  | nil => rfl
  | cons g gs ih =>
      have hb : nonEmptyB g = false := by
        simp [nonEmptyB, List.isEmpty_iff, h g (List.mem_cons_self g gs)]
      rw [List.filter_cons_of_neg (by simp [hb])]
      exact ih fun x hx => h x (List.mem_cons_of_mem g hx)

/-- C1: a group whose item sequence is empty or absent contributes no
rendered group — its element is `null`, splicing it into any position of
the dataset leaves the rendered dialog unchanged, and in the two-group
scenario where the second group has an empty items array only the first
group's heading and rows are rendered. -/
theorem C1_empty_or_absent_group_not_rendered (ι : Type)
    (g g1 g2 : SearchGroup ι) (pre post : List (SearchGroup ι)) (b : Bool)
    (hg : g.data = none ∨ g.data = some [])
    (h2 : g2.data = some []) :
    renderGroup g = none
      ∧ renderDialog (pre ++ g :: post) b = renderDialog (pre ++ post) b
      ∧ headingsList (render [g1, g2] b) = headingsList (render [g1] b)
      ∧ itemKeysList (render [g1, g2] b) = itemKeysList (render [g1] b) := by
  have hI : itemsOf g = [] := by
    rcases hg with h | h <;> simp [itemsOf, h]
  have hI2 : itemsOf g2 = [] := by simp [itemsOf, h2]
  have hg0 : renderGroup g = none := renderGroup_eq_none g hI
  have hb2 : nonEmptyB g2 = false := by
    simp [nonEmptyB, List.isEmpty_iff, hI2]
  have hgroups : renderedGroups (pre ++ g :: post) = renderedGroups (pre ++ post) := by
    simp [renderedGroups, List.filterMap_append, List.filterMap_cons, hg0]
  refine ⟨hg0, ?_, ?_, ?_⟩
  · rw [renderDialog, renderDialog, hgroups]
  · rw [headings_render, headings_render]
    cases hb1 : nonEmptyB g1 <;> simp [List.filter_cons, hb1, hb2]
  · rw [itemKeys_render, itemKeys_render]
    cases hb1 : nonEmptyB g1 <;> simp [List.filter_cons, hb1, hb2]

/-- C1 witness: the general theorem applied to an absent-items group, and
to the concrete two-group scenario whose second group is empty. -/
theorem C1_empty_or_absent_group_not_rendered_witness :
    (gAbsent.data = none ∨ gAbsent.data = some [])
      ∧ gEmpty.data = some []
      ∧ (renderGroup gAbsent = none
          ∧ renderDialog ([] ++ gAbsent :: []) true = renderDialog ([] ++ []) true
          ∧ headingsList (render [gOne, gEmpty] true) = headingsList (render [gOne] true)
          ∧ itemKeysList (render [gOne, gEmpty] true) = itemKeysList (render [gOne] true)) :=
  ⟨Or.inl rfl, rfl,
    C1_empty_or_absent_group_not_rendered Unit gAbsent gOne gEmpty [] [] true
      (Or.inl rfl) rfl⟩

/-- C2: for well-formed input (distinct ids), the keys of the rendered item
rows are exactly the item ids across all non-empty groups (as lists, hence
as sets), and every rendered group is keyed by its label (its key equals
its heading, the group label). -/
theorem C2_rendered_keys_eq_ids (ι : Type) (data : List (SearchGroup ι))
    (b : Bool) (_h : wellFormed data) :
    itemKeysList (render data b) = allIds data
      ∧ (itemKeysList (render data b)).toFinset = (allIds data).toFinset
      ∧ keyHeadingsList (render data b)
          = (data.filter nonEmptyB).map (fun g => (g.label, g.label)) := by
  have hkeys : itemKeysList (render data b) = allIds data := by
    rw [itemKeys_render, filtered_ids_eq_allIds]
  exact ⟨hkeys, by rw [hkeys], keyHeadings_render data b⟩

/-- C2 witness: the theorem applied to the concrete one-group dataset,
whose flattened id list is duplicate-free. -/
theorem C2_rendered_keys_eq_ids_witness :
    wellFormed sampleData
      ∧ (itemKeysList (render sampleData true) = allIds sampleData
          ∧ (itemKeysList (render sampleData true)).toFinset
              = (allIds sampleData).toFinset
          ∧ keyHeadingsList (render sampleData true)
              = (sampleData.filter nonEmptyB).map (fun g => (g.label, g.label))) :=
  ⟨by unfold wellFormed; decide,
    C2_rendered_keys_eq_ids Unit sampleData true (by unfold wellFormed; decide)⟩

/-- C3: the only state is the boolean open flag, initialised to Closed
(`false`); activating the trigger steps any state to Open, the dialog
primitive reporting a dismissal steps any state to Closed, a boolean admits
no further state, and the rendered dialog's open attribute always equals
the state — in particular it is not open while the state is Closed. -/
theorem C3_two_state_open_closed_machine (ι : Type)
    (data : List (SearchGroup ι)) :
    initialOpen = false
      ∧ (∀ s, step s Event.clickTrigger = true)
      ∧ (∀ s b, step s (Event.openChange b) = b)
      ∧ (∀ s : Bool, s = initialOpen ∨ s = true)
      ∧ (∀ b, dialogOpenFlagsList (render data b) = [b])
      ∧ dialogOpenFlagsList (render data initialOpen) = [false] := by
  refine ⟨rfl, fun s => rfl, fun s b => rfl, ?_, ?_, ?_⟩
  · intro s; cases s
    · exact Or.inl rfl
    · exact Or.inr rfl
  · intro b; exact dialogOpenFlags_render data b
  · exact dialogOpenFlags_render data initialOpen

/-- C4: when the flattened item list is empty, no group is rendered at all:
the dialog holds exactly the input and the results list, the results list
holds exactly the "No Result found" placeholder, and no heading, key or
row appears anywhere in the output. -/
theorem C4_empty_flattened_input_shows_only_placeholder (ι : Type)
    (data : List (SearchGroup ι)) (b : Bool) (h : flatItems data = []) :
    renderedGroups data = []
      ∧ renderDialog data b
          = Node.commandDialog b [HandlerSpec.onOpenChange]
              [Node.commandInput searchPlaceholder,
                Node.commandList [Node.commandEmpty emptyMessage]]
      ∧ commandListKidsList (render data b) = [[Node.commandEmpty emptyMessage]]
      ∧ headingsList (render data b) = []
      ∧ itemKeysList (render data b) = []
      ∧ rowsList (render data b) = [] := by
  have hall : ∀ g ∈ data, itemsOf g = [] := itemsOf_nil_of_flatItems_nil data h
  have hgs : renderedGroups data = [] := renderedGroups_eq_nil data hall
  have hf : data.filter nonEmptyB = [] := filter_nonEmpty_eq_nil data hall
  refine ⟨hgs, ?_, commandListKids_render data b, ?_, ?_, ?_⟩
  · rw [renderDialog, hgs]
  · rw [headings_render, hf]; rfl
  · rw [itemKeys_render, hf]; rfl
  · rw [rows_render, hf]; rfl

/-- C4 witness: the theorem applied to a dataset of one absent-items group
and one empty group. -/
theorem C4_empty_flattened_input_shows_only_placeholder_witness :
    flatItems [gAbsent, gEmpty] = []
      ∧ (renderedGroups [gAbsent, gEmpty] = []
          ∧ renderDialog [gAbsent, gEmpty] false
              = Node.commandDialog false [HandlerSpec.onOpenChange]
                  [Node.commandInput searchPlaceholder,
                    Node.commandList [Node.commandEmpty emptyMessage]]
          ∧ commandListKidsList (render [gAbsent, gEmpty] false)
              = [[Node.commandEmpty emptyMessage]]
          ∧ headingsList (render [gAbsent, gEmpty] false) = []
          ∧ itemKeysList (render [gAbsent, gEmpty] false) = []
          ∧ rowsList (render [gAbsent, gEmpty] false) = []) :=
  ⟨rfl, C4_empty_flattened_input_shows_only_placeholder Unit [gAbsent, gEmpty] false rfl⟩

/-- C5: on the single-group scenario dataset, clicking the trigger opens
the widget, and the open render shows exactly one group heading
"Text Channels", keyed "Text Channels", with exactly one row keyed "1"
displaying "general". -/
theorem C5_single_group_scenario :
    step initialOpen Event.clickTrigger = true
      ∧ headingsList (render sampleData true) = ["Text Channels"]
      ∧ keyHeadingsList (render sampleData true)
          = [("Text Channels", "Text Channels")]
      ∧ itemKeysList (render sampleData true) = ["1"]
      ∧ rowsList (render sampleData true) = [("1", ["general"])] := by
  refine ⟨rfl, ?_, ?_, ?_, ?_⟩
  · rw [headings_render]; rfl
  · rw [keyHeadings_render]; rfl
  · rw [itemKeys_render]; rfl
  · rw [rows_render]; rfl

/-- C6: rendering has no failure branch: re-expressing the component body
with an explicit error channel, every input produces `.ok` of exactly the
rendered output — no group or item access can fail. -/
theorem C6_render_total_no_error_branch (ι : Type)
    (data : List (SearchGroup ι)) (b : Bool) :
    renderE data b = Except.ok (render data b) := by
  rw [renderE, renderedGroupsE_ok]
  rfl

/-- C7: rendering is purely presentational: a render pass returns the input
dataset unchanged, no handler of any kind is attached to any rendered item
row, and the only handlers in the whole output are the trigger's click and
the dialog primitive's own open-change channel — so selecting an item is
wired to nothing of this component. -/
theorem C7_render_pure_no_item_callbacks (ι : Type)
    (data : List (SearchGroup ι)) (b : Bool) :
    (renderPass data b).1 = data
      ∧ itemHandlersList (render data b) = []
      ∧ handlersList (render data b)
          = [HandlerSpec.onClick Event.clickTrigger, HandlerSpec.onOpenChange] :=
  ⟨rfl, itemHandlers_render data b, handlers_render data b⟩

/-- C8: for every input, the results `CommandList` contains exactly the
empty-state placeholder as its one child (no item row is inside it), and
the group elements are emitted inside the dialog as siblings following the
input and the list. -/
theorem C8_groups_are_siblings_of_command_list (ι : Type)
    (data : List (SearchGroup ι)) (b : Bool) :
    commandListKidsList (render data b) = [[Node.commandEmpty emptyMessage]]
      ∧ itemKeysList ([Node.commandList [Node.commandEmpty emptyMessage]] : List (Node ι)) = []
      ∧ dialogKidsList (render data b)
          = [Node.commandInput searchPlaceholder
              :: Node.commandList [Node.commandEmpty emptyMessage]
              :: renderedGroups data] := by
  refine ⟨commandListKids_render data b, ?_, dialogKids_render data b⟩
  simp [itemKeysList, collect, allNodesList, Node.allNodes, itemKeyOf]

/-- C9: rendering preserves input order: the headings are the labels of the
non-empty groups in input order (`filter` keeps relative order), the rows
of each rendered group are its items' keys in input order, and the overall
row keys are the flattening of the kept groups in order. -/
theorem C9_render_preserves_input_order (ι : Type)
    (data : List (SearchGroup ι)) (b : Bool) :
    headingsList (render data b) = (data.filter nonEmptyB).map SearchGroup.label
      ∧ groupRowKeysList (render data b)
          = (data.filter nonEmptyB).map (fun g => (itemsOf g).map SearchItem.id)
      ∧ itemKeysList (render data b)
          = (data.filter nonEmptyB).flatMap (fun g => (itemsOf g).map SearchItem.id) :=
  ⟨headings_render data b, groupRowKeys_render data b, itemKeys_render data b⟩

/-- C10: the ⌘K glyph is decorative: no keyboard handler is wired anywhere
in the output, the only user-gesture event wired by this component is the
trigger click, and that click steps the Closed state to Open. -/
theorem C10_trigger_click_only_opener (ι : Type)
    (data : List (SearchGroup ι)) (b : Bool) :
    keydownEventsList (render data b) = []
      ∧ gestureEventsList (render data b) = [Event.clickTrigger]
      ∧ step initialOpen Event.clickTrigger = true :=
  ⟨keydownEvents_render data b, gestureEvents_render data b, rfl⟩

end ServerSearch
